import Mathlib

/-!
# QCad geometric core: polyline data, line-type patterns, text data

A shallow embedding of the three headers `rs_polyline.h`, `rs_linetypepattern.h`
and `rs_text.h`.

Conventions of the embedding.
* A C++ `double` that is only stored, copied or written as a decimal literal is
  read as the exact rational it denotes (`ℚ`).
* A member function that mutates `*this` becomes a function returning the new
  object.
* A pointer is an `Option` of an address, `none` being `NULL`.
* Types whose headers are not part of the sources (`RS_Vector`, `RS_Flags`,
  the `RS2` enumerations) are modelled minimally; what is unknown about them is
  taken as a parameter.
-/

namespace QCad

/-! ## Collaborating types -/

/-- Modelled from the spec: `RS_Vector` (its header is not among the sources) is
"a 2D coordinate with an explicit validity flag". The polyline code reads the
member `valid` and copies vectors by value. -/
structure RS_Vector where
  x : ℚ
  y : ℚ
  valid : Bool
  deriving DecidableEq, Repr

/-- Modelled from the spec: the call `RS_Vector(valid)`, a point with the given
"explicit validity flag". The constructor body is not among the sources: the
coordinates it leaves behind are the parameter `c`; the flag is the argument. -/
def RS_Vector.ofValid (valid : Bool) (c : ℚ × ℚ) : RS_Vector :=
  { x := c.1, y := c.2, valid := valid }

/-- Modelled from the spec: the base class `RS_Flags` (its header is not among the
sources), which holds "the closed flag": one `unsigned int` word of flag bits. -/
structure RS_Flags where
  flags : ℕ
  deriving DecidableEq, Repr

/-- Width of the flag word. -/
def RS_Flags.wordSize : ℕ := 2 ^ 32

/-- Modelled from the spec: method `setFlag(f)` of the absent `RS_Flags`, set-bit:
`flags = flags | f`. -/
def RS_Flags.setFlag (s : RS_Flags) (f : ℕ) : RS_Flags :=
  { flags := s.flags ||| f }

/-- Modelled from the spec: method `delFlag(f)` of the absent `RS_Flags`, clear-bit:
`flags = flags & ~f` on a 32-bit word. -/
def RS_Flags.delFlag (s : RS_Flags) (f : ℕ) : RS_Flags :=
  { flags := s.flags &&& (RS_Flags.wordSize - 1 - f) }

/-- Modelled from the spec: method `getFlag(f)` of the absent `RS_Flags`: whether
`flags & f` is non-zero. -/
def RS_Flags.getFlag (s : RS_Flags) (f : ℕ) : Bool :=
  decide (s.flags &&& f ≠ 0)

/-! ## rs_polyline.h -/

/-- Class `RS_PolylineData : public RS_Flags` with its two private members. -/
structure RS_PolylineData extends RS_Flags where
  startpoint : RS_Vector
  endpoint : RS_Vector
  deriving DecidableEq, Repr

/-- Constructor `RS_PolylineData()`: `startpoint = endpoint = RS_Vector(false);`.
The base subobject as the (absent) `RS_Flags()` constructor leaves it is `base`,
the coordinates left by `RS_Vector(false)` are `c`. -/
def RS_PolylineData.default (base : RS_Flags) (c : ℚ × ℚ) : RS_PolylineData :=
  { toRS_Flags := base
    startpoint := RS_Vector.ofValid false c
    endpoint := RS_Vector.ofValid false c }

/-- Constructor `RS_PolylineData(startpoint, endpoint, closed)`: stores both points and sets
`RS2::FlagClosed` (the parameter `flagClosed`) when `closed` is true. -/
def RS_PolylineData.init (base : RS_Flags) (flagClosed : ℕ)
    (startpoint endpoint : RS_Vector) (closed : Bool) : RS_PolylineData :=
  let d : RS_PolylineData :=
    { toRS_Flags := base, startpoint := startpoint, endpoint := endpoint }
  if closed = true then { d with toRS_Flags := d.toRS_Flags.setFlag flagClosed } else d

/-- Class `RS_Polyline : public RS_EntityContainer`. The three protected members
of the class, and the member `entities` of the container base (addresses of the
owned segments, in order). -/
structure RS_Polyline where
  entities : List ℕ
  data : RS_PolylineData
  closingEntity : Option ℕ
  nextBulge : ℚ
  deriving DecidableEq, Repr

namespace RS_Polyline

/-- Method `getData()`: a copy of the data. -/
def getData (pl : RS_Polyline) : RS_PolylineData := pl.data

/-- Method `setStartpoint(v)`:
`data.startpoint = v; if (!data.endpoint.valid) { data.endpoint = v; }`. -/
def setStartpoint (pl : RS_Polyline) (v : RS_Vector) : RS_Polyline :=
  let pl1 := { pl with data := { pl.data with startpoint := v } }
  if !pl1.data.endpoint.valid then
    { pl1 with data := { pl1.data with endpoint := v } }
  else pl1

/-- Method `getStartpoint()`: `return data.startpoint;`. -/
def getStartpoint (pl : RS_Polyline) : RS_Vector := pl.data.startpoint

/-- Method `setEndpoint(v)`: `data.endpoint = v;`. -/
def setEndpoint (pl : RS_Polyline) (v : RS_Vector) : RS_Polyline :=
  { pl with data := { pl.data with endpoint := v } }

/-- Method `getEndpoint()`: `return data.endpoint;`. -/
def getEndpoint (pl : RS_Polyline) : RS_Vector := pl.data.endpoint

/-- Method `isClosed()`: `data.getFlag(RS2::FlagClosed)`; the value of the enumerator
`RS2::FlagClosed` is the parameter `flagClosed`. -/
def isClosed (flagClosed : ℕ) (pl : RS_Polyline) : Bool :=
  pl.data.toRS_Flags.getFlag flagClosed

/-- Method `setClosed(cl)`: `data.setFlag(RS2::FlagClosed)` when `cl`, otherwise
`data.delFlag(RS2::FlagClosed)`. Nothing else is written. -/
def setClosed (flagClosed : ℕ) (pl : RS_Polyline) (cl : Bool) : RS_Polyline :=
  if cl then
    { pl with data := { pl.data with toRS_Flags := pl.data.toRS_Flags.setFlag flagClosed } }
  else
    { pl with data := { pl.data with toRS_Flags := pl.data.toRS_Flags.delFlag flagClosed } }

/-- Method `setNextbulge(bulge)`: `nextBulge = bulge;`. -/
def setNextbulge (pl : RS_Polyline) (bulge : ℚ) : RS_Polyline :=
  { pl with nextBulge := bulge }

end RS_Polyline

/-! ## rs_linetypepattern.h -/

/-- Class `RS_LineTypePattern`: the array `pattern` and the count `num`. -/
structure RS_LineTypePattern where
  pattern : List ℚ
  num : ℤ
  deriving DecidableEq, Repr

/-- The loop `for (i = 0; i < count; i++) { pattern[i] = va_arg(ap, double); }`
for the `n` rounds that remain: each round takes the next variadic argument.
Taking an argument that was not passed has no defined result (`none`). -/
def RS_LineTypePattern.readArgs : ℕ → List ℚ → Option (List ℚ)
  | 0, _ => some []
  | _ + 1, [] => none
  | n + 1, a :: ap => (RS_LineTypePattern.readArgs n ap).map (a :: ·)

/-- Constructor `RS_LineTypePattern(int count ...)`: `num = count; pattern = new double[num];`
followed by the loop. `ap` are the variadic arguments of the call. No argument is
inspected or compared with anything. The result is `none` only where the C++ has
no defined result: a negative array size, or fewer than `count` arguments. -/
def RS_LineTypePattern.new (count : ℤ) (ap : List ℚ) : Option RS_LineTypePattern :=
  if count < 0 then none
  else (RS_LineTypePattern.readArgs count.toNat ap).map
    fun p => { pattern := p, num := count }

/-- One definition `static RS_LineTypePattern name(count, v1, ..., vk);` of the
header: the first argument and the literal lengths written after it. -/
structure StaticPattern where
  count : ℤ
  lengths : List ℚ
  deriving DecidableEq, Repr

/-- The object a static definition creates: the constructor run on its arguments. -/
def StaticPattern.object (d : StaticPattern) : Option RS_LineTypePattern :=
  RS_LineTypePattern.new d.count d.lengths

def patternSolidLine : StaticPattern := ⟨1, [10.0]⟩

def patternDotLine : StaticPattern := ⟨2, [0.1, -6.2]⟩
def patternDotLine2 : StaticPattern := ⟨2, [0.1, -3.1]⟩
def patternDotLineX2 : StaticPattern := ⟨2, [0.1, -12.4]⟩

def patternDashLine : StaticPattern := ⟨2, [12.0, -6.0]⟩
def patternDashLine2 : StaticPattern := ⟨2, [6.0, -3.0]⟩
def patternDashLineX2 : StaticPattern := ⟨2, [24.0, -12.0]⟩

def patternDashDotLine : StaticPattern := ⟨4, [12.0, -5.95, 0.1, -5.95]⟩
def patternDashDotLine2 : StaticPattern := ⟨4, [6.0, -2.95, 0.1, -2.95]⟩
def patternDashDotLineX2 : StaticPattern := ⟨4, [24.0, -11.95, 0.1, -11.95]⟩

def patternDivideLine : StaticPattern :=
  ⟨6, [12.0, -5.9, 0.15, -5.9, 0.15, -5.9]⟩
def patternDivideLine2 : StaticPattern :=
  ⟨6, [6.0, -2.9, 0.15, -2.9, 0.15, -2.9]⟩
def patternDivideLineX2 : StaticPattern :=
  ⟨6, [24.0, -11.9, 0.15, -11.9, 0.15, -11.9]⟩

def patternCenterLine : StaticPattern := ⟨4, [32.0, -6.0, 6.0, -6.0]⟩
def patternCenterLine2 : StaticPattern := ⟨4, [16.0, -3.0, 3.0, -3.0]⟩
def patternCenterLineX2 : StaticPattern := ⟨4, [64.0, -12.0, 12.0, -12.0]⟩

def patternBorderLine : StaticPattern :=
  ⟨6, [12.0, -6.0, 12.0, -5.95, 0.1, -5.95]⟩
def patternBorderLine2 : StaticPattern :=
  ⟨6, [6.0, -3.0, 6.0, -2.95, 0.1, -2.95]⟩
def patternBorderLineX2 : StaticPattern :=
  ⟨6, [24.0, -12.0, 24.0, -11.95, 0.1, -11.95]⟩

def patternBlockLine : StaticPattern := ⟨2, [0.5, -0.5]⟩
def patternSelected : StaticPattern := ⟨2, [1.0, -3.0]⟩

/-- The static table: every pattern the header defines, in the order of the header. -/
def patternTable : List StaticPattern :=
  [patternSolidLine,
   patternDotLine, patternDotLine2, patternDotLineX2,
   patternDashLine, patternDashLine2, patternDashLineX2,
   patternDashDotLine, patternDashDotLine2, patternDashDotLineX2,
   patternDivideLine, patternDivideLine2, patternDivideLineX2,
   patternCenterLine, patternCenterLine2, patternCenterLineX2,
   patternBorderLine, patternBorderLine2, patternBorderLineX2,
   patternBlockLine, patternSelected]

/-- A pattern family with scale variants: the base pattern, its `2` variant and
its `X2` variant. -/
structure Family where
  base : StaticPattern
  half : StaticPattern
  double : StaticPattern

def familyDotLine : Family := ⟨patternDotLine, patternDotLine2, patternDotLineX2⟩
def familyDashLine : Family := ⟨patternDashLine, patternDashLine2, patternDashLineX2⟩
def familyDashDotLine : Family :=
  ⟨patternDashDotLine, patternDashDotLine2, patternDashDotLineX2⟩
def familyDivideLine : Family :=
  ⟨patternDivideLine, patternDivideLine2, patternDivideLineX2⟩
def familyCenterLine : Family :=
  ⟨patternCenterLine, patternCenterLine2, patternCenterLineX2⟩
def familyBorderLine : Family :=
  ⟨patternBorderLine, patternBorderLine2, patternBorderLineX2⟩

/-- The six families of the header that have scale variants. -/
def scaleFamilies : List Family :=
  [familyDotLine, familyDashLine, familyDashDotLine, familyDivideLine,
   familyCenterLine, familyBorderLine]

/-- Modelled from the spec: the pattern cycle length, the "sum of absolute values" of
the signed length sequence of a pattern (the code that sums it is not among the
sources). -/
def RS_LineTypePattern.cycleLength (p : RS_LineTypePattern) : ℚ :=
  (p.pattern.map fun v => |v|).sum

/-- Sign of a length: `1` drawn, `-1` gap, `0` zero-length. -/
def lengthSign (v : ℚ) : ℤ :=
  if 0 < v then 1 else if v < 0 then -1 else 0

/-- Two neighbours alternate strictly: one is drawn and the other a gap. -/
def Alternates (a b : ℚ) : Prop :=
  (0 < a ∧ b < 0) ∨ (a < 0 ∧ 0 < b)

/-- Every two consecutive elements of the sequence alternate strictly. -/
def AlternatesAll : List ℚ → Prop
  | a :: b :: rest => Alternates a b ∧ AlternatesAll (b :: rest)
  | _ => True

/-- Well-formedness of a constructed pattern: at least one element, as many
elements as `num` says, no zero element, a drawn first element, strict
alternation of drawn and gap, and a positive cycle length. -/
def RS_LineTypePattern.WellFormed (p : RS_LineTypePattern) : Prop :=
  1 ≤ p.num ∧ p.num = p.pattern.length ∧
  (∀ v ∈ p.pattern, v ≠ 0) ∧
  (∃ v, p.pattern.head? = some v ∧ 0 < v) ∧
  AlternatesAll p.pattern ∧
  0 < p.cycleLength

/-- Modelled from the spec: the phase the Pattern Cursor returns,
"(φ + L) mod C", the remainder of `φ + L` on division by the cycle length.
The cursor code is not among the sources. -/
def nextPhase (φ L C : ℚ) : ℚ :=
  (φ + L) - C * ⌊(φ + L) / C⌋

/-- Same topology: the `2` variant `h` and the `X2` variant `x` have as many
elements as the base `b`, and the same sign at every index. -/
def SameTopology (b h x : RS_LineTypePattern) : Prop :=
  h.num = b.num ∧ x.num = b.num ∧
  h.pattern.length = b.pattern.length ∧ x.pattern.length = b.pattern.length ∧
  h.pattern.map lengthSign = b.pattern.map lengthSign ∧
  x.pattern.map lengthSign = b.pattern.map lengthSign

/-- Exact scaling: at every index the element of `h` is one half of, and the
element of `x` is twice, the element of the base `b`. -/
def ExactScale (b h x : RS_LineTypePattern) : Prop :=
  List.Forall₂ (fun hv bv => hv = bv / 2) h.pattern b.pattern ∧
  List.Forall₂ (fun xv bv => xv = 2 * bv) x.pattern b.pattern

/-- Scaling as the table does it: at every index, an element whose base length is
at least 6 is exactly halved in `h` and exactly doubled in `x`, and a dot (base
length below 1) is the same in `b`, `h` and `x`. -/
def LongScaledDotKept (b h x : RS_LineTypePattern) : Prop :=
  List.Forall₂ (fun hv bv => (6 ≤ |bv| → hv = bv / 2) ∧ (|bv| < 1 → hv = bv))
    h.pattern b.pattern ∧
  List.Forall₂ (fun xv bv => (6 ≤ |bv| → xv = 2 * bv) ∧ (|bv| < 1 → xv = bv))
    x.pattern b.pattern

/-- Exact scaling of the cycle length: that of `h` is half of, that of `x` twice,
the cycle length of the base `b`. -/
def CycleScaled (b h x : RS_LineTypePattern) : Prop :=
  h.cycleLength = b.cycleLength / 2 ∧ x.cycleLength = 2 * b.cycleLength

/-- Modelled from the spec: a sub-span the Pattern Cursor emits, "absolute
start/end distance along the segment and its drawn/gap classification". -/
structure Span where
  start : ℚ
  stop : ℚ
  drawn : Bool
  deriving DecidableEq, Repr

/-- Modelled from the spec: steps 1 to 3 of the Pattern Cursor (its code is not
among the sources). `rest` are the elements of the current cycle still ahead,
`skip` the part of the incoming phase not yet walked over, `pos` the distance
along the segment reached so far. Each element contributes the portion of it not
yet consumed, clipped to the remaining length; at the end of the cycle the walk
continues from element 0. One unit of `fuel` is used per element visited. -/
def cursorWalk (P : List ℚ) : ℕ → List ℚ → ℚ → ℚ → ℚ → Option (List Span)
  | 0, _, _, _, _ => none
  | fuel + 1, rest, skip, pos, L =>
    if L ≤ pos then some []
    else
      match rest with
      | [] => cursorWalk P fuel P skip pos L
      | e :: r =>
        if |e| ≤ skip then cursorWalk P fuel r (skip - |e|) pos L
        else
          let len := min (|e| - skip) (L - pos)
          (cursorWalk P fuel r 0 (pos + len) L).map
            ({ start := pos, stop := pos + len, drawn := decide (0 < e) } :: ·)

/-- Modelled from the spec: one stroke call of the Pattern Cursor on a segment of
length `L` with incoming phase `φ`: the emitted sub-spans and the returned phase. -/
def stroke (p : RS_LineTypePattern) (φ L : ℚ) (fuel : ℕ) : Option (List Span × ℚ) :=
  (cursorWalk p.pattern fuel p.pattern φ 0 L).map
    fun spans => (spans, nextPhase φ L p.cycleLength)

/-! ## rs_text.h -/

/-- The enumerations `RS2::VAlign`, `RS2::HAlign`, `RS2::TextDrawingDirection`,
`RS2::TextLineSpacingStyle` and `RS2::UpdateMode` (their header is not among the
sources) are read as the integer value of the enumerator. -/
abbrev RS2.Enum := ℤ

/-- Class `RS_TextData`: its twelve public data members. -/
structure RS_TextData where
  insertionPoint : RS_Vector
  height : ℚ
  width : ℚ
  valign : RS2.Enum
  halign : RS2.Enum
  drawingDirection : RS2.Enum
  lineSpacingStyle : RS2.Enum
  lineSpacingFactor : ℚ
  text : String
  style : String
  angle : ℚ
  updateMode : RS2.Enum
  deriving DecidableEq, Repr

/-- The initialising constructor
`RS_TextData(insertionPoint, height, valign, halign, drawingDirection,
lineSpacingStyle, lineSpacingFactor, text, style, angle, updateMode)`.
It has no member-initialiser list, so its body runs on the storage `self` as it
is found. It has eleven parameters and none is called `width`: in the statement
`this->width = width;` the right-hand side names the member itself. -/
def RS_TextData.init (self : RS_TextData) (insertionPoint : RS_Vector) (height : ℚ)
    (valign halign drawingDirection lineSpacingStyle : RS2.Enum)
    (lineSpacingFactor : ℚ) (text style : String) (angle : ℚ)
    (updateMode : RS2.Enum) : RS_TextData :=
  let s := { self with insertionPoint := insertionPoint }
  let s := { s with height := height }
  let s := { s with width := s.width }
  let s := { s with valign := valign }
  let s := { s with halign := halign }
  let s := { s with drawingDirection := drawingDirection }
  let s := { s with lineSpacingStyle := lineSpacingStyle }
  let s := { s with lineSpacingFactor := lineSpacingFactor }
  let s := { s with style := style }
  let s := { s with angle := angle }
  let s := { s with text := text }
  { s with updateMode := updateMode }

/-! ## Inputs used in the examples -/

/-- A closed polyline that holds a closing segment: two segments at addresses 1
and 2, the closing segment at address 3, the closed flag (here bit 9) set. -/
def closedTriangle : RS_Polyline :=
  { entities := [1, 2, 3]
    data := { flags := 512, startpoint := ⟨0, 0, true⟩, endpoint := ⟨0, 0, true⟩ }
    closingEntity := some 3
    nextBulge := 0 }

/-- A polyline holding default-constructed data. -/
def freshPolyline : RS_Polyline :=
  { entities := []
    data := RS_PolylineData.default ⟨0⟩ (0, 0)
    closingEntity := none
    nextBulge := 0 }

/-- Storage for a text data object, with some width left in it. -/
def textStorage (w : ℚ) : RS_TextData :=
  { insertionPoint := ⟨0, 0, true⟩, height := 0, width := w, valign := 0, halign := 0,
    drawingDirection := 0, lineSpacingStyle := 0, lineSpacingFactor := 0,
    text := "", style := "", angle := 0, updateMode := 0 }

end QCad

namespace QCad

/-! ## Auxiliary facts -/

/-- A flag that was just set is read as set, for a non-zero flag value. -/
theorem RS_Flags.getFlag_setFlag (s : RS_Flags) (f : ℕ) (hf : f ≠ 0) :
    (s.setFlag f).getFlag f = true := by
  have h : (s.flags ||| f) &&& f = f := by
    apply Nat.eq_of_testBit_eq
    intro i
    simp only [Nat.testBit_and, Nat.testBit_or]
    cases s.flags.testBit i <;> cases f.testBit i <;> rfl
  simp [RS_Flags.getFlag, RS_Flags.setFlag, h, hf]

/-- A flag that was just deleted is read as not set, for a flag value of the word. -/
theorem RS_Flags.getFlag_delFlag (s : RS_Flags) (f : ℕ) (hf : f < RS_Flags.wordSize) :
    (s.delFlag f).getFlag f = false := by
  have h : (s.flags &&& (RS_Flags.wordSize - 1 - f)) &&& f = 0 := by
    apply Nat.eq_of_testBit_eq
    intro i
    have e : RS_Flags.wordSize - 1 - f = 2 ^ 32 - (f + 1) := by
      unfold RS_Flags.wordSize; omega
    rw [e]
    simp only [Nat.testBit_and, Nat.zero_testBit]
    rw [Nat.testBit_two_pow_sub_succ hf]
    cases s.flags.testBit i <;> cases f.testBit i <;> simp
  simp [RS_Flags.getFlag, RS_Flags.delFlag, h]

/-- The loop of the constructor, given enough arguments, stores the first `n` of them. -/
theorem RS_LineTypePattern.readArgs_eq_take (n : ℕ) (ap : List ℚ) (h : n ≤ ap.length) :
    RS_LineTypePattern.readArgs n ap = some (ap.take n) := by
  induction n generalizing ap with
  | zero => simp [RS_LineTypePattern.readArgs]
  | succ n ih =>
    cases ap with
    | nil => simp at h
    | cons a ap =>
      have h1 : n ≤ ap.length := by simpa using h
      simp [RS_LineTypePattern.readArgs, ih ap h1]

/-- The members of `scaleFamilies`, one by one. -/
theorem mem_scaleFamilies {f : Family} (hf : f ∈ scaleFamilies) :
    f = familyDotLine ∨ f = familyDashLine ∨ f = familyDashDotLine ∨
    f = familyDivideLine ∨ f = familyCenterLine ∨ f = familyBorderLine := by
  simpa [scaleFamilies] using hf

/-! ## The polyline -/

/-- C1: for every polyline state and every point `p`, `setStartpoint(p)` leaves the
start point equal to `p`; the end point afterwards is `p` if the end point was
invalid before the call, and is the end point of before if that was valid. -/
theorem setStartpoint_start_and_end (pl : RS_Polyline) (p : RS_Vector) :
    (pl.setStartpoint p).getStartpoint = p ∧
    (pl.setStartpoint p).getEndpoint =
      if pl.getEndpoint.valid = true then pl.getEndpoint else p := by
  unfold RS_Polyline.setStartpoint RS_Polyline.getStartpoint RS_Polyline.getEndpoint
  cases h : pl.data.endpoint.valid <;> simp [h]

/-- C2, as the claim states it, fails: on a polyline that holds a closing segment
(`closingEntity` is address 3), `setClosed(false)` clears the closed flag and the
polyline still holds that closing segment. -/
theorem setClosed_false_closing_segment_stays :
    closedTriangle.closingEntity = some 3 ∧
    closedTriangle.isClosed 512 = true ∧
    (closedTriangle.setClosed 512 false).isClosed 512 = false ∧
    (closedTriangle.setClosed 512 false).closingEntity = some 3 ∧
    (closedTriangle.setClosed 512 false).closingEntity ≠ none := by
  decide

/-- C2, amended: for every polyline that holds a closing segment, `setClosed(false)`
only clears the closed flag; `closingEntity` and the sequence of owned segments are
what they were, so the polyline still holds its closing segment afterwards. -/
theorem setClosed_false_only_clears_flag (flagClosed : ℕ) (pl : RS_Polyline)
    (hfc : flagClosed < RS_Flags.wordSize) (hce : pl.closingEntity ≠ none) :
    (pl.setClosed flagClosed false).isClosed flagClosed = false ∧
    (pl.setClosed flagClosed false).closingEntity = pl.closingEntity ∧
    (pl.setClosed flagClosed false).closingEntity ≠ none ∧
    (pl.setClosed flagClosed false).entities = pl.entities := by
  refine ⟨?_, rfl, hce, rfl⟩
  exact RS_Flags.getFlag_delFlag _ _ hfc

/-- The statement on `closedTriangle`, with bit 9 as the closed flag. -/
theorem setClosed_false_only_clears_flag_witness :
    (512 < RS_Flags.wordSize ∧ closedTriangle.closingEntity ≠ none) ∧
    ((closedTriangle.setClosed 512 false).isClosed 512 = false ∧
     (closedTriangle.setClosed 512 false).closingEntity = closedTriangle.closingEntity ∧
     (closedTriangle.setClosed 512 false).closingEntity ≠ none ∧
     (closedTriangle.setClosed 512 false).entities = closedTriangle.entities) :=
  ⟨⟨by decide, by decide⟩,
   setClosed_false_only_clears_flag 512 closedTriangle (by decide) (by decide)⟩

/-- C8: for every polyline state and every boolean `b`, after `setClosed(b)` the query
`isClosed()` returns `b`, and start point and end point are those of before the
call. `RS2::FlagClosed` is any non-zero value of the 32-bit flag word. -/
theorem isClosed_setClosed (flagClosed : ℕ) (pl : RS_Polyline) (b : Bool)
    (h0 : flagClosed ≠ 0) (hfc : flagClosed < RS_Flags.wordSize) :
    (pl.setClosed flagClosed b).isClosed flagClosed = b ∧
    (pl.setClosed flagClosed b).getStartpoint = pl.getStartpoint ∧
    (pl.setClosed flagClosed b).getEndpoint = pl.getEndpoint := by
  cases b
  · exact ⟨RS_Flags.getFlag_delFlag _ _ hfc, rfl, rfl⟩
  · exact ⟨RS_Flags.getFlag_setFlag _ _ h0, rfl, rfl⟩

/-- The statement on `freshPolyline`, closing it with bit 9 as the closed flag. -/
theorem isClosed_setClosed_witness :
    ((512 : ℕ) ≠ 0 ∧ 512 < RS_Flags.wordSize) ∧
    ((freshPolyline.setClosed 512 true).isClosed 512 = true ∧
     (freshPolyline.setClosed 512 true).getStartpoint = freshPolyline.getStartpoint ∧
     (freshPolyline.setClosed 512 true).getEndpoint = freshPolyline.getEndpoint) :=
  ⟨⟨by decide, by decide⟩, isClosed_setClosed 512 freshPolyline true (by decide) (by decide)⟩

/-- C10: default-constructed polyline data has an invalid start point and an invalid
end point; on a polyline holding such data the first `setStartpoint(p)` with a valid
`p` gives `getStartpoint() = getEndpoint() = p`, and a following `setStartpoint(q)`
gives `getStartpoint() = q` while `getEndpoint()` is still `p`. -/
theorem default_data_then_setStartpoint (base : RS_Flags) (c : ℚ × ℚ)
    (pl : RS_Polyline) (p q : RS_Vector)
    (hd : pl.getData = RS_PolylineData.default base c) (hp : p.valid = true) :
    (RS_PolylineData.default base c).startpoint.valid = false ∧
    (RS_PolylineData.default base c).endpoint.valid = false ∧
    (pl.setStartpoint p).getStartpoint = p ∧
    (pl.setStartpoint p).getEndpoint = p ∧
    ((pl.setStartpoint p).setStartpoint q).getStartpoint = q ∧
    ((pl.setStartpoint p).setStartpoint q).getEndpoint = p := by
  unfold RS_Polyline.getData at hd
  simp [RS_Polyline.setStartpoint, RS_Polyline.getStartpoint, RS_Polyline.getEndpoint,
    hd, RS_PolylineData.default, RS_Vector.ofValid, hp]

/-- The statement on `freshPolyline` with the points (1,2) and (3,4). -/
theorem default_data_then_setStartpoint_witness :
    (freshPolyline.getData = RS_PolylineData.default ⟨0⟩ (0, 0) ∧
      (⟨1, 2, true⟩ : RS_Vector).valid = true) ∧
    ((RS_PolylineData.default ⟨0⟩ (0, 0)).startpoint.valid = false ∧
     (RS_PolylineData.default ⟨0⟩ (0, 0)).endpoint.valid = false ∧
     (freshPolyline.setStartpoint ⟨1, 2, true⟩).getStartpoint = ⟨1, 2, true⟩ ∧
     (freshPolyline.setStartpoint ⟨1, 2, true⟩).getEndpoint = ⟨1, 2, true⟩ ∧
     ((freshPolyline.setStartpoint ⟨1, 2, true⟩).setStartpoint ⟨3, 4, true⟩).getStartpoint
       = ⟨3, 4, true⟩ ∧
     ((freshPolyline.setStartpoint ⟨1, 2, true⟩).setStartpoint ⟨3, 4, true⟩).getEndpoint
       = ⟨1, 2, true⟩) :=
  ⟨⟨rfl, rfl⟩,
   default_data_then_setStartpoint ⟨0⟩ (0, 0) freshPolyline ⟨1, 2, true⟩ ⟨3, 4, true⟩ rfl rfl⟩

/-! ## The pattern constructor -/

/-- C3, as the claim states it, fails: the call with arguments `(2, 5.0, 0.0)`, whose
sequence has a zero-length element, yields the pattern `[5.0, 0.0]` with `num = 2`,
and the call with count `0`, whose cycle length is `0`, yields the empty pattern. -/
theorem new_accepts_zero_length_and_empty :
    (0 : ℚ) ∈ [(5.0 : ℚ), 0.0] ∧
    RS_LineTypePattern.new 2 [5.0, 0.0] = some { pattern := [5.0, 0.0], num := 2 } ∧
    RS_LineTypePattern.new 0 [] = some { pattern := [], num := 0 } ∧
    RS_LineTypePattern.cycleLength { pattern := [], num := 0 } ≤ 0 := by
  refine ⟨by norm_num, rfl, rfl, ?_⟩
  simp [RS_LineTypePattern.cycleLength]

/-- C3, amended: constructing an `RS_LineTypePattern` validates nothing. Whenever the
count is not negative and at least `count` lengths are supplied, the construction
succeeds and yields the pattern with `num = count` that holds the first `count`
supplied lengths as they are, also when one of them is zero or the cycle length is
not positive. -/
theorem new_stores_arguments_unchecked (count : ℤ) (ap : List ℚ)
    (h0 : 0 ≤ count) (hlen : count ≤ ap.length) :
    RS_LineTypePattern.new count ap =
      some { pattern := ap.take count.toNat, num := count } := by
  have hn : count.toNat ≤ ap.length := by omega
  have hneg : ¬ count < 0 := by omega
  simp [RS_LineTypePattern.new, hneg, RS_LineTypePattern.readArgs_eq_take _ _ hn]

/-- The statement on the call with arguments `(2, 5.0, 0.0)`. -/
theorem new_stores_arguments_unchecked_witness :
    ((0 : ℤ) ≤ 2 ∧ (2 : ℤ) ≤ ([5.0, 0.0] : List ℚ).length) ∧
    RS_LineTypePattern.new 2 [5.0, 0.0] =
      some { pattern := ([5.0, 0.0] : List ℚ).take (2 : ℤ).toNat, num := 2 } :=
  ⟨⟨by decide, by decide⟩,
   new_stores_arguments_unchecked 2 [5.0, 0.0] (by decide) (by decide)⟩

/-! ## The pattern table -/

/-- C4: the static table has 21 patterns and every one of them is well-formed: its
count equals the number of literal lengths given, the construction yields a pattern
whose `num` is that number and is at least 1, no element is zero, the first element
is positive, consecutive elements strictly alternate in sign, and the cycle length
is strictly positive. -/
theorem patternTable_wellFormed (d : StaticPattern) (hd : d ∈ patternTable) :
    patternTable.length = 21 ∧
    d.count = d.lengths.length ∧
    ∃ p, d.object = some p ∧ p.num = d.lengths.length ∧ p.WellFormed := by
  refine ⟨rfl, ?_⟩
  simp only [patternTable, List.mem_cons, List.mem_singleton, List.not_mem_nil,
    or_false] at hd
  rcases hd with h | h | h | h | h | h | h | h | h | h | h | h | h | h | h | h | h | h |
      h | h | h <;>
    subst h <;> refine ⟨rfl, ⟨_, _⟩, rfl, rfl, ?_⟩ <;>
    norm_num [RS_LineTypePattern.WellFormed, RS_LineTypePattern.cycleLength, Alternates,
      AlternatesAll,
      abs_eq_max_neg, max_def, patternSolidLine, patternDotLine, patternDotLine2,
      patternDotLineX2, patternDashLine, patternDashLine2, patternDashLineX2,
      patternDashDotLine, patternDashDotLine2, patternDashDotLineX2,
      patternDivideLine, patternDivideLine2, patternDivideLineX2,
      patternCenterLine, patternCenterLine2, patternCenterLineX2,
      patternBorderLine, patternBorderLine2, patternBorderLineX2,
      patternBlockLine, patternSelected]

/-- The statement on `patternDivideLine`. -/
theorem patternTable_wellFormed_witness :
    patternDivideLine ∈ patternTable ∧
    (patternTable.length = 21 ∧
     patternDivideLine.count = patternDivideLine.lengths.length ∧
     ∃ p, patternDivideLine.object = some p ∧
       p.num = patternDivideLine.lengths.length ∧ p.WellFormed) :=
  ⟨by simp [patternTable],
   patternTable_wellFormed patternDivideLine (by simp [patternTable])⟩

/-- C5, as the claim states it, fails: in the DotLine family the first element of the
`2` variant is `0.1`, the same as that of the base pattern and not its half `0.05`,
and the first element of the `X2` variant is `0.1` too, not `0.2`. -/
theorem dotLine_variants_not_exact :
    familyDotLine ∈ scaleFamilies ∧
    familyDotLine.base.object = some { pattern := [0.1, -6.2], num := 2 } ∧
    familyDotLine.half.object = some { pattern := [0.1, -3.1], num := 2 } ∧
    familyDotLine.double.object = some { pattern := [0.1, -12.4], num := 2 } ∧
    (0.1 : ℚ) ≠ 0.1 / 2 ∧ (0.1 : ℚ) ≠ 2 * 0.1 ∧
    ¬ ExactScale { pattern := [0.1, -6.2], num := 2 } { pattern := [0.1, -3.1], num := 2 }
        { pattern := [0.1, -12.4], num := 2 } := by
  refine ⟨by simp [scaleFamilies], rfl, rfl, rfl, by norm_num, by norm_num, ?_⟩
  norm_num [ExactScale]

/-- C5, amended: in every one of the six families the `2` and the `X2` variant have
the same number of elements and the same sign at every index as the base pattern; at
every index an element whose base length is at least 6 is exactly halved in the `2`
variant and exactly doubled in the `X2` variant, and a dot (base length below 1) is
the same in all three. In DashLine and CenterLine every element is exactly halved
and doubled; in DotLine, DashDotLine, DivideLine and BorderLine that is not so. -/
theorem scale_variants_same_topology (f : Family) (hf : f ∈ scaleFamilies) :
    ∃ b h x, f.base.object = some b ∧ f.half.object = some h ∧
      f.double.object = some x ∧
      SameTopology b h x ∧ LongScaledDotKept b h x ∧
      (f ∈ [familyDashLine, familyCenterLine] → ExactScale b h x) ∧
      (f ∈ [familyDotLine, familyDashDotLine, familyDivideLine, familyBorderLine] →
        ¬ ExactScale b h x) := by
  rcases mem_scaleFamilies hf with h | h | h | h | h | h <;> subst h <;>
    refine ⟨⟨_, _⟩, ⟨_, _⟩, ⟨_, _⟩, rfl, rfl, rfl, ?_⟩ <;>
    norm_num [SameTopology, LongScaledDotKept, ExactScale, lengthSign,
      abs_eq_max_neg, max_def,
      familyDotLine, familyDashLine, familyDashDotLine, familyDivideLine,
      familyCenterLine, familyBorderLine,
      patternDotLine, patternDotLine2,
      patternDotLineX2, patternDashLine, patternDashLine2, patternDashLineX2,
      patternDashDotLine, patternDashDotLine2, patternDashDotLineX2,
      patternDivideLine, patternDivideLine2, patternDivideLineX2,
      patternCenterLine, patternCenterLine2, patternCenterLineX2,
      patternBorderLine, patternBorderLine2, patternBorderLineX2]

/-- The statement on the BorderLine family. -/
theorem scale_variants_same_topology_witness :
    familyBorderLine ∈ scaleFamilies ∧
    ∃ b h x, familyBorderLine.base.object = some b ∧
      familyBorderLine.half.object = some h ∧
      familyBorderLine.double.object = some x ∧
      SameTopology b h x ∧ LongScaledDotKept b h x ∧
      (familyBorderLine ∈ [familyDashLine, familyCenterLine] → ExactScale b h x) ∧
      (familyBorderLine ∈
          [familyDotLine, familyDashDotLine, familyDivideLine, familyBorderLine] →
        ¬ ExactScale b h x) :=
  ⟨by simp [scaleFamilies],
   scale_variants_same_topology familyBorderLine (by simp [scaleFamilies])⟩

/-- C6, as the claim states it, fails: in the DotLine family the cycle lengths are
`6.3` for the base pattern, `3.2` for the `2` variant, which is not the half `3.15`,
and `12.5` for the `X2` variant, which is not the double `12.6`. -/
theorem dotLine_cycle_not_scaled :
    familyDotLine ∈ scaleFamilies ∧
    familyDotLine.base.object = some { pattern := [0.1, -6.2], num := 2 } ∧
    familyDotLine.half.object = some { pattern := [0.1, -3.1], num := 2 } ∧
    familyDotLine.double.object = some { pattern := [0.1, -12.4], num := 2 } ∧
    RS_LineTypePattern.cycleLength { pattern := [0.1, -6.2], num := 2 } = 6.3 ∧
    RS_LineTypePattern.cycleLength { pattern := [0.1, -3.1], num := 2 } = 3.2 ∧
    RS_LineTypePattern.cycleLength { pattern := [0.1, -12.4], num := 2 } = 12.5 ∧
    (3.2 : ℚ) ≠ 6.3 / 2 ∧ (12.5 : ℚ) ≠ 2 * 6.3 ∧
    ¬ CycleScaled { pattern := [0.1, -6.2], num := 2 } { pattern := [0.1, -3.1], num := 2 }
        { pattern := [0.1, -12.4], num := 2 } := by
  refine ⟨by simp [scaleFamilies], rfl, rfl, rfl, ?_, ?_, ?_, by norm_num, by norm_num, ?_⟩ <;>
    norm_num [CycleScaled, RS_LineTypePattern.cycleLength, abs_eq_max_neg, max_def]

/-- C6, amended: in the families DashLine, DashDotLine, DivideLine, CenterLine and
BorderLine the cycle length of the `2` variant is exactly half, and that of the `X2`
variant exactly double, the cycle length of the base pattern. In DotLine the gap is
halved and doubled while the dot keeps its length `0.1`: the cycle lengths are `6.3`,
`3.2` and `12.5`. -/
theorem scale_variants_cycle_length (f : Family) (hf : f ∈ scaleFamilies) :
    ∃ b h x, f.base.object = some b ∧ f.half.object = some h ∧
      f.double.object = some x ∧
      (f ∈ [familyDashLine, familyDashDotLine, familyDivideLine, familyCenterLine,
          familyBorderLine] → CycleScaled b h x) ∧
      (f = familyDotLine →
        b.cycleLength = 6.3 ∧ h.cycleLength = 3.2 ∧ x.cycleLength = 12.5) := by
  rcases mem_scaleFamilies hf with h | h | h | h | h | h <;> subst h <;>
    refine ⟨⟨_, _⟩, ⟨_, _⟩, ⟨_, _⟩, rfl, rfl, rfl, ?_⟩ <;>
    norm_num [CycleScaled, RS_LineTypePattern.cycleLength, abs_eq_max_neg, max_def,
      familyDotLine, familyDashLine, familyDashDotLine, familyDivideLine,
      familyCenterLine, familyBorderLine,
      patternDotLine, patternDotLine2,
      patternDotLineX2, patternDashLine, patternDashLine2, patternDashLineX2,
      patternDashDotLine, patternDashDotLine2, patternDashDotLineX2,
      patternDivideLine, patternDivideLine2, patternDivideLineX2,
      patternCenterLine, patternCenterLine2, patternCenterLineX2,
      patternBorderLine, patternBorderLine2, patternBorderLineX2]

/-- The statement on the DashDotLine family. -/
theorem scale_variants_cycle_length_witness :
    familyDashDotLine ∈ scaleFamilies ∧
    ∃ b h x, familyDashDotLine.base.object = some b ∧
      familyDashDotLine.half.object = some h ∧
      familyDashDotLine.double.object = some x ∧
      (familyDashDotLine ∈ [familyDashLine, familyDashDotLine, familyDivideLine,
          familyCenterLine, familyBorderLine] → CycleScaled b h x) ∧
      (familyDashDotLine = familyDotLine →
        b.cycleLength = 6.3 ∧ h.cycleLength = 3.2 ∧ x.cycleLength = 12.5) :=
  ⟨by simp [scaleFamilies],
   scale_variants_cycle_length familyDashDotLine (by simp [scaleFamilies])⟩

/-- C7: the `patternDashLine` of the table is exactly the sequence `[12.0, -6.0]` with count
2 and its cycle length is 18; for incoming phase 0 and segment length 36 the phase
returned by the rule `(phase + L) mod C` is 0, and 36 is exactly two full cycles of
12 drawn and 6 gap: the cursor emits drawn 0..12, gap 12..18, drawn 18..30,
gap 30..36. -/
theorem dashLine_two_full_cycles :
    patternDashLine.count = 2 ∧ patternDashLine.lengths = [12.0, -6.0] ∧
    ∃ p, patternDashLine.object = some p ∧
      p.num = 2 ∧ p.pattern = [12.0, -6.0] ∧
      p.cycleLength = 18 ∧
      nextPhase 0 36 p.cycleLength = 0 ∧
      (36 : ℚ) = 2 * (12 + 6) ∧
      ∀ k : ℕ, stroke p 0 36 (k + 6) =
        some ([⟨0, 12, true⟩, ⟨12, 18, false⟩, ⟨18, 30, true⟩, ⟨30, 36, false⟩], 0) := by
  refine ⟨rfl, rfl, ⟨_, _⟩, rfl, rfl, rfl, ?_, ?_, by norm_num, ?_⟩
  · norm_num [RS_LineTypePattern.cycleLength, patternDashLine, abs_eq_max_neg, max_def]
  · norm_num [nextPhase, RS_LineTypePattern.cycleLength, patternDashLine, abs_eq_max_neg,
      max_def]
  · intro k
    norm_num [stroke, cursorWalk, nextPhase, RS_LineTypePattern.cycleLength,
      patternDashLine, abs_eq_max_neg, max_def, min_def]

/-! ## The text data -/

/-- C9 on the code: the initialising constructor of `RS_TextData` takes eleven of the
twelve fields from its arguments, and the width from none of them: the resulting
width is what the storage held before, whatever the arguments are. Two constructions
from the same arguments end with the widths 1 and 7. -/
theorem textData_init_width_not_initialised :
    (∀ (self : RS_TextData) (insertionPoint : RS_Vector) (height : ℚ)
        (valign halign drawingDirection lineSpacingStyle : RS2.Enum)
        (lineSpacingFactor : ℚ) (text style : String) (angle : ℚ)
        (updateMode : RS2.Enum),
      RS_TextData.init self insertionPoint height valign halign drawingDirection
          lineSpacingStyle lineSpacingFactor text style angle updateMode =
        { insertionPoint := insertionPoint, height := height, width := self.width,
          valign := valign, halign := halign, drawingDirection := drawingDirection,
          lineSpacingStyle := lineSpacingStyle, lineSpacingFactor := lineSpacingFactor,
          text := text, style := style, angle := angle, updateMode := updateMode }) ∧
    (RS_TextData.init (textStorage 1) ⟨0, 0, true⟩ 5 0 0 0 0 1 "abc" "standard" 0 0).width
      = 1 ∧
    (RS_TextData.init (textStorage 7) ⟨0, 0, true⟩ 5 0 0 0 0 1 "abc" "standard" 0 0).width
      = 7 := by
  refine ⟨?_, rfl, rfl⟩
  intros
  rfl

end QCad
